import Mathlib

/-!
Verification of the zimage2 job-orchestration plane against its
natural-language specification.  The Python services are shallowly embedded:
floats and wall-clock instants become `ℚ`, UUIDs and object keys become
`String`, SQLAlchemy rows become structures, HTTP failures become
`Except (Nat × String)`, and external collaborators (MinIO, the translation
model, the unicode character database) become explicit function parameters.
Every definition is transcribed from the corresponding source file, which is
cited in its doc comment.
-/

namespace Zimage

/-- Python truthiness for an optional string column or header: `None` and the
empty string are falsy. -/
def pyStrTruthy : Option String → Bool
  | none => false
  | some s => !(s == "")

/-- Python `a or b` for an optional string `a`: falls through on `None` and
on the empty string. -/
def pyStrOr (a : Option String) (b : String) : String :=
  match a with
  | none => b
  | some s => if s == "" then b else s

/-- Python `a or b` for an optional float `a`: falls through on `None` and on
`0.0`, both being falsy. -/
def pyFloatOr (a : Option ℚ) (b : ℚ) : ℚ :=
  match a with
  | none => b
  | some x => if x == 0 then b else x

/-- Python `int(q)` on a float: truncation toward zero. -/
def pyInt (q : ℚ) : Int :=
  if q < 0 then -((-q).floor) else q.floor

/-- Default user id substituted by the image-service endpoints when no
`X-User-ID` header is present (generate.py line 36, inpaint.py line 46,
edit_history.py line 181). -/
def defaultUserId : String := "00000000-0000-0000-0000-000000000001"

/-- The `if not user_id: user_id = "00000000-…-01"` development fallback used
by every image-service handler. -/
def pyUser (x_user_id : Option String) : String :=
  if pyStrTruthy x_user_id then x_user_id.getD defaultUserId else defaultUserId

/-- Task lifecycle states, from models/task.py `TaskStatus`. -/
inductive TaskStatus where
  | pending
  | processing
  | completed
  | failed
deriving DecidableEq, Repr

/-- String value of a status, as serialized by `task.status.value`. -/
def TaskStatus.value : TaskStatus → String
  | .pending => "pending"
  | .processing => "processing"
  | .completed => "completed"
  | .failed => "failed"

/-- One entry of the worker result payload's `images` list
(image_generation.py lines 106-113, inpainting.py lines 170-177). -/
structure ImageEntry where
  id : String
  url : String
  object_name : String
  width : Int
  height : Int
  seed : Option Int
deriving DecidableEq, Repr

/-- The structured result dictionary a worker task returns through the queue
(image_generation.py lines 120-127 and 138-143, inpainting.py lines 199-210
and 220-225).  Fields absent from a given task's dictionary are `none`. -/
structure WorkerResult where
  task_id : String
  status : String
  images : List ImageEntry
  mask_object_name : Option String := none
  error : Option String := none
  original_prompt : Option String := none
  translated_prompt : Option String := none
  was_translated : Bool := false
deriving DecidableEq, Repr

/-- A `generation_tasks` row, from models/task.py `GenerationTask`. -/
structure GenerationTask where
  id : String
  user_id : String
  celery_task_id : Option String
  status : TaskStatus
  error : Option String
  prompt : String
  negative_prompt : Option String
  width : Int
  height : Int
  num_images : Int
  seed : Option Int
  result : Option WorkerResult
  created_at : ℚ
  started_at : Option ℚ
  completed_at : Option ℚ
deriving DecidableEq, Repr

/-- An `images` row, from models/image.py `Image`.  The table has a
single-column primary key `id` (a fresh uuid4 by default) and carries no
unique constraint on `(task_id, id)` or on any other column pair. -/
structure ImageRow where
  id : String
  user_id : String
  task_id : Option String
  url : String
  thumbnail_url : Option String
  object_name : String
  prompt : Option String
  negative_prompt : Option String
  width : Int
  height : Int
  seed : Option Int
  is_favorite : Bool := false
  folder_id : Option String := none
  image_metadata : List (String × String) := []
  created_at : ℚ := 0
deriving DecidableEq, Repr

/-- An `inpaint_tasks` row, from models/inpaint_task.py `InpaintTask`. -/
structure InpaintTask where
  id : String
  user_id : String
  celery_task_id : Option String
  original_image_id : String
  status : TaskStatus
  error : Option String
  prompt : Option String
  negative_prompt : Option String
  strength : ℚ
  guidance_scale : ℚ
  num_inference_steps : Int
  seed : Option Int
  mask_object_name : Option String
  result : List ImageEntry
  created_at : ℚ
  started_at : Option ℚ
  completed_at : Option ℚ
deriving DecidableEq, Repr

/-- The JSON `edit_metadata` column content written by the inpaint status
reconciler (inpaint.py lines 192-196) and read back by replay
(edit_history.py lines 236-238). -/
structure EditMeta where
  guidance_scale : Option ℚ
  num_inference_steps : Option Int
  seed : Option Int
deriving DecidableEq, Repr

/-- An `edit_history` row, from models/edit_history.py `EditHistory`.  The
`edit_metadata` field models the JSONB column; `none` stands for an absent or
empty (falsy) dictionary. -/
structure EditHistoryRow where
  id : String
  user_id : String
  original_image_id : String
  edited_image_id : String
  inpaint_task_id : Option String
  edit_type : String
  prompt : Option String
  negative_prompt : Option String
  strength : Option ℚ
  mask_object_name : Option String
  original_thumbnail_url : Option String
  edited_thumbnail_url : Option String
  edit_metadata : Option EditMeta
  created_at : ℚ := 0
deriving DecidableEq, Repr

end Zimage

namespace Zimage.Gateway

/-- Paths that skip authentication, from middleware/auth.py `PUBLIC_PATHS`. -/
def PUBLIC_PATHS : List String :=
  ["/", "/health", "/docs", "/redoc", "/openapi.json",
   "/v1/auth/login", "/v1/auth/register", "/v1/auth/refresh"]

/-- The middleware's public-path test, `any(path.startswith(p) for p in
PUBLIC_PATHS)` (auth.py line 30).  Python `path.startswith(p)` holds when
the character sequence of `p` is a prefix of that of `path`. -/
def isPublicPath (path : String) : Bool :=
  PUBLIC_PATHS.any fun p => p.data.isPrefixOf path.data

/-- JWT claim set carried by the tokens this system issues: subject, role,
expiry and the `type` claim (named `typ` here because `type` is reserved). -/
structure TokenPayload where
  sub : Option String
  role : Option String
  exp : ℚ
  typ : Option String
deriving DecidableEq, Repr

/-- A signed token: its payload plus the key it was signed with.  `jwt.encode`
with symmetric HMAC is modelled by recording the signing key; `jwt.decode`
succeeds exactly when the verification key matches and the `exp` claim lies
in the future. -/
structure Jwt where
  payload : TokenPayload
  signedWith : String
deriving DecidableEq, Repr

/-- Model of `jose.jwt.decode(token, secret, algorithms=[…])`: verifies the
signature and the expiry claim, returning the payload; any failure raises
`JWTError`, modelled as `none`. -/
def jwt_decode (tok : Jwt) (secret : String) (now : ℚ) : Option TokenPayload :=
  if tok.signedWith == secret && decide (now < tok.payload.exp) then
    some tok.payload
  else none

/-- Access-token expiry in seconds (auth-service config:
`ACCESS_TOKEN_EXPIRE_MINUTES = 30`). -/
def accessTokenLifetime : ℚ := 30 * 60

/-- Refresh-token expiry in seconds (auth-service config:
`REFRESH_TOKEN_EXPIRE_DAYS = 7`). -/
def refreshTokenLifetime : ℚ := 7 * 24 * 60 * 60

/-- Token issued by auth-service `create_access_token` (services/auth.py
lines 27-36): claims sub, role, exp and type "access". -/
def create_access_token (secret user_id role : String) (now : ℚ) : Jwt :=
  { payload := { sub := some user_id, role := some role,
                 exp := now + accessTokenLifetime, typ := some "access" },
    signedWith := secret }

/-- Token issued by auth-service `create_refresh_token` (services/auth.py
lines 39-47): claims sub, exp and type "refresh" but no role. -/
def create_refresh_token (secret user_id : String) (now : ℚ) : Jwt :=
  { payload := { sub := some user_id, role := none,
                 exp := now + refreshTokenLifetime, typ := some "refresh" },
    signedWith := secret }

/-- Authorization header as the middleware sees it: absent, present but not
of the `Bearer <token>` shape, or a bearer token. -/
inductive AuthHeader where
  | missing
  | malformed
  | bearer (tok : Jwt)
deriving DecidableEq, Repr

/-- Request context the middleware attaches on success (auth.py lines 51-53):
`request.state.user_id = payload.get("sub")` and
`request.state.user_role = payload.get("role", "user")`. -/
structure GwCtx where
  user_id : Option String
  role : String
deriving DecidableEq, Repr

/-- Outcome of the gateway middleware: forwarded to the upstream (with the
attached context, if any) or rejected with an HTTP status code. -/
inductive GwOutcome where
  | forwarded (ctx : Option GwCtx)
  | rejected (code : Nat)
deriving DecidableEq, Repr

/-- The token-validation tail of `AuthMiddleware.dispatch` (auth.py lines
33-60), reached only for paths that fail the public-path test: missing or
malformed header gives 401, `jwt.decode` failure gives 401, and a decoded
payload has its sub and role attached.  The `type` claim is never
inspected. -/
def auth_token_check (secret : String) (now : ℚ) (h : AuthHeader) :
    Except Nat GwCtx :=
  match h with
  | .missing => .error 401
  | .malformed => .error 401
  | .bearer tok =>
    match jwt_decode tok secret now with
    | none => .error 401
    | some p => .ok { user_id := p.sub, role := p.role.getD "user" }

/-- `AuthMiddleware.dispatch` (auth.py lines 27-62): public paths are
forwarded immediately with no context; all other paths go through
`auth_token_check`. -/
def auth_dispatch (secret : String) (now : ℚ) (path : String)
    (h : AuthHeader) : GwOutcome :=
  if isPublicPath path then .forwarded none
  else
    match auth_token_check secret now h with
    | .error c => .rejected c
    | .ok ctx => .forwarded (some ctx)

/-- Sliding-window length in seconds (rate_limit.py: `self.window = 60`). -/
def rlWindow : ℚ := 60

/-- The pruning step of `RateLimitMiddleware._is_rate_limited` (rate_limit.py
lines 35-39): keep request timestamps strictly newer than `now - window`. -/
def rlPrune (now : ℚ) (s : List ℚ) : List ℚ :=
  s.filter fun r => decide (now - rlWindow < r)

/-- One call of `_is_rate_limited` for a single client ip (rate_limit.py
lines 28-47): prune, reject if the window already holds `limit` entries,
otherwise record the request.  Returns whether the request was accepted
together with the new per-ip list. -/
def rlStep (limit : Nat) (s : List ℚ) (now : ℚ) : Bool × List ℚ :=
  let l := rlPrune now s
  if limit ≤ l.length then (false, l) else (true, l ++ [now])

/-- Acceptance flags of a sequence of requests from one client, threading the
per-ip list through successive `_is_rate_limited` calls. -/
def rlFlags (limit : Nat) : List ℚ → List ℚ → List Bool
  | _, [] => []
  | s, t :: ts =>
    let p := rlStep limit s t
    p.1 :: rlFlags limit p.2 ts

/-- The timestamps of the accepted requests of a sequence, in order. -/
def rlAccepted (limit : Nat) : List ℚ → List ℚ → List ℚ
  | _, [] => []
  | s, t :: ts =>
    let p := rlStep limit s t
    if p.1 then t :: rlAccepted limit p.2 ts else rlAccepted limit p.2 ts

/-- Paths exempt from rate limiting (rate_limit.py line 51). -/
def rlExemptPaths : List String := ["/health", "/"]

/-- The path test of `RateLimitMiddleware.dispatch`: exact membership, unlike
the auth middleware's prefix test. -/
def rlExempt (path : String) : Bool := rlExemptPaths.contains path

end Zimage.Gateway

namespace Zimage.Api

open Zimage

/-- Request schema for text-to-image generation, schemas/image.py
`ImageGenerateRequest`.  Fields hold arbitrary client values; pydantic's
`Field` bounds are applied by `image_generate_request_valid`. -/
structure ImageGenerateRequest where
  prompt : String
  negative_prompt : Option String
  width : Int := 1024
  height : Int := 1024
  num_images : Int := 1
  seed : Option Int := none
deriving DecidableEq, Repr

/-- Pydantic validation of `ImageGenerateRequest` (schemas/image.py lines
7-15): prompt length in 1..2000, negative prompt length at most 1000, width
and height in 256..2048, num_images in 1..4, seed at least 0 when present.
A request failing any bound is rejected with 422/400 before the handler
runs. -/
def image_generate_request_valid (r : ImageGenerateRequest) : Bool :=
  decide (1 ≤ r.prompt.length) && decide (r.prompt.length ≤ 2000) &&
  (match r.negative_prompt with
   | none => true
   | some np => decide (np.length ≤ 1000)) &&
  decide (256 ≤ r.width) && decide (r.width ≤ 2048) &&
  decide (256 ≤ r.height) && decide (r.height ≤ 2048) &&
  decide (1 ≤ r.num_images) && decide (r.num_images ≤ 4) &&
  (match r.seed with
   | none => true
   | some s => decide (0 ≤ s))

/-- Keyword arguments sent to the `generate_image` queue task (generate.py
lines 55-68). -/
structure GenerateKwargs where
  task_id : String
  prompt : String
  negative_prompt : String
  width : Int
  height : Int
  num_images : Int
  seed : Option Int
  user_id : String
deriving DecidableEq, Repr

/-- The 202 submission response body (generate.py lines 76-80, inpaint.py
lines 101-105, edit_history.py lines 279-283). -/
structure SubmitResponse where
  task_id : String
  status : String
  estimated_time : ℚ
deriving DecidableEq, Repr

/-- Result of a successful submission: the persisted task row, the enqueued
payload, and the 202 response. -/
structure GenerateOutcome where
  task : GenerationTask
  kwargs : GenerateKwargs
  resp : SubmitResponse
deriving DecidableEq, Repr

/-- The `POST /generate` handler (generate.py `generate_image`, lines
28-80): substitute the default user when the header is falsy, create a
pending task row copying the request parameters, enqueue the payload, store
the queue handle, and answer 202 with `estimated_time = num_images * 2.0`
(line 74: "roughly 2 seconds per image"). -/
def generate_submit (x_user_id : Option String) (r : ImageGenerateRequest)
    (task_id celery_id : String) (now : ℚ) : GenerateOutcome :=
  let user_id := pyUser x_user_id
  let task : GenerationTask :=
    { id := task_id, user_id := user_id, celery_task_id := some celery_id,
      status := .pending, error := none,
      prompt := r.prompt, negative_prompt := r.negative_prompt,
      width := r.width, height := r.height, num_images := r.num_images,
      seed := r.seed, result := none,
      created_at := now, started_at := none, completed_at := none }
  let kwargs : GenerateKwargs :=
    { task_id := task_id, prompt := r.prompt,
      negative_prompt := r.negative_prompt.getD "",
      width := r.width, height := r.height, num_images := r.num_images,
      seed := r.seed, user_id := user_id }
  { task := task, kwargs := kwargs,
    resp := { task_id := task_id, status := "pending",
              estimated_time := (r.num_images : ℚ) * 2 } }

/-- Request schema for inpainting, schemas/inpaint.py `InpaintRequest`. -/
structure InpaintRequest where
  original_image_id : String
  mask_data : String
  prompt : String
  negative_prompt : Option String
  strength : ℚ := 0.85
  guidance_scale : ℚ := 7.5
  num_inference_steps : Int := 30
  seed : Option Int := none
deriving DecidableEq, Repr

/-- Keyword arguments sent to the `inpaint_image` queue task (inpaint.py
lines 78-93, edit_history.py lines 258-273). -/
structure InpaintKwargs where
  task_id : String
  original_image_url : String
  mask_data : String
  prompt : String
  negative_prompt : String
  strength : ℚ
  guidance_scale : ℚ
  num_inference_steps : Int
  seed : Option Int
  user_id : String
deriving DecidableEq, Repr

/-- Result of a successful inpaint submission or replay. -/
structure InpaintOutcome where
  task : InpaintTask
  kwargs : InpaintKwargs
  resp : SubmitResponse
deriving DecidableEq, Repr

/-- The `POST /inpaint` handler (inpaint.py `inpaint_image`, lines 38-105):
substitute the default user, resolve the original image or 404, create a
pending inpaint task row, enqueue, and answer 202 with
`estimated_time = 15.0` (line 99). -/
def inpaint_submit (images : List ImageRow) (x_user_id : Option String)
    (r : InpaintRequest) (task_id celery_id : String) (now : ℚ) :
    Except (Nat × String) InpaintOutcome :=
  let user_id := pyUser x_user_id
  match images.find? (fun i => i.id == r.original_image_id) with
  | none => .error (404, "Original image not found")
  | some original_image =>
    let task : InpaintTask :=
      { id := task_id, user_id := user_id, celery_task_id := some celery_id,
        original_image_id := r.original_image_id, status := .pending,
        error := none, prompt := some r.prompt,
        negative_prompt := r.negative_prompt, strength := r.strength,
        guidance_scale := r.guidance_scale,
        num_inference_steps := r.num_inference_steps, seed := r.seed,
        mask_object_name := none, result := [],
        created_at := now, started_at := none, completed_at := none }
    let kwargs : InpaintKwargs :=
      { task_id := task_id, original_image_url := original_image.url,
        mask_data := r.mask_data, prompt := r.prompt,
        negative_prompt := r.negative_prompt.getD "",
        strength := r.strength, guidance_scale := r.guidance_scale,
        num_inference_steps := r.num_inference_steps, seed := r.seed,
        user_id := user_id }
    .ok { task := task, kwargs := kwargs,
          resp := { task_id := task_id, status := "pending",
                    estimated_time := 15 } }

/-- External collaborators of the replay endpoint: `minio_client.get_object`
(returning the stored bytes, or failing) and `base64.b64encode(...).decode`. -/
structure ReplayEnv where
  minioGet : String → Option String
  b64encode : String → String

/-- The `POST /edit-history/id/replay` handler (edit_history.py
`replay_edit`, lines 173-283): the history row must exist for the caller
(404 otherwise), must carry a stored mask (400 otherwise); the target image
must exist (404) but its owner is looked up with no user filter (lines
205-208); the mask bytes are fetched from object storage (500 on failure)
and a fresh inpaint task is synthesized from the history row's
parameters. -/
def replay_edit (env : ReplayEnv) (histories : List EditHistoryRow)
    (images : List ImageRow) (x_user_id : Option String)
    (history_id target_image_id : String) (task_id celery_id : String)
    (now : ℚ) : Except (Nat × String) InpaintOutcome :=
  let user_id := pyUser x_user_id
  match histories.find?
      (fun hh => hh.id == history_id && hh.user_id == user_id) with
  | none => .error (404, "Edit history not found")
  | some history =>
    if !(pyStrTruthy history.mask_object_name) then
      .error (400, "No mask available for this edit")
    else
      match images.find? (fun i => i.id == target_image_id) with
      | none => .error (404, "Target image not found")
      | some target_image =>
        match env.minioGet (history.mask_object_name.getD "") with
        | none => .error (500, "Failed to retrieve mask")
        | some bytes =>
          let mask_data :=
            "data:image/png;base64," ++ env.b64encode bytes
          let guidance_scale :=
            match history.edit_metadata with
            | some m => m.guidance_scale.getD 7.5
            | none => 7.5
          let num_inference_steps :=
            match history.edit_metadata with
            | some m => m.num_inference_steps.getD 30
            | none => 30
          let seed :=
            match history.edit_metadata with
            | some m => m.seed
            | none => none
          let task : InpaintTask :=
            { id := task_id, user_id := user_id,
              celery_task_id := some celery_id,
              original_image_id := target_image_id, status := .pending,
              error := none, prompt := history.prompt,
              negative_prompt := history.negative_prompt,
              strength := pyFloatOr history.strength 0.85,
              guidance_scale := guidance_scale,
              num_inference_steps := num_inference_steps, seed := seed,
              mask_object_name := none, result := [],
              created_at := now, started_at := none, completed_at := none }
          let kwargs : InpaintKwargs :=
            { task_id := task_id, original_image_url := target_image.url,
              mask_data := mask_data,
              prompt := pyStrOr history.prompt "",
              negative_prompt := pyStrOr history.negative_prompt "",
              strength := pyFloatOr history.strength 0.85,
              guidance_scale := guidance_scale,
              num_inference_steps := num_inference_steps, seed := seed,
              user_id := user_id }
          .ok { task := task, kwargs := kwargs,
                resp := { task_id := task_id, status := "pending",
                          estimated_time := 15 } }

/-- The database read of `GET /tasks/id` (tasks.py lines 48-51): the task is
selected by id alone; the handler declares no user parameter, so the lookup
is independent of any caller identity. -/
def get_task_status_lookup (tasks : List GenerationTask) (task_id : String) :
    Option GenerationTask :=
  tasks.find? fun t => t.id == task_id

/-- Estimated generation time in seconds, tasks.py
`estimate_generation_time` (lines 25-38): base 3 seconds scaled by pixel
count against a 512x512 baseline, plus 5 seconds of model-load on the
first image, plus the per-image base for each additional image. -/
def estimate_generation_time (width height : Int) (num_images : Int) : ℚ :=
  let pixels : ℚ := ((width * height : Int) : ℚ)
  let base_pixels : ℚ := 512 * 512
  let base_time : ℚ := 3
  let first_image_time := base_time * (pixels / base_pixels) + 5
  let additional_image_time := base_time * (pixels / base_pixels)
  if num_images == 1 then first_image_time
  else first_image_time + ((num_images - 1 : Int) : ℚ) * additional_image_time

end Zimage.Api

namespace Zimage.Worker

open Zimage

/-- External collaborators of the ml-worker tasks: the translation-enable
flag (config `ENABLE_TRANSLATION`), the `unicodedata.name`-based CJK
character test of translation_pipeline.py `contains_cjk` (abstracted as a
per-character classifier over the unicode database), and the translation
model behind `TranslationPipeline.translate_to_english` (a black-box model
call returning English text). -/
structure WorkerEnv where
  enableTranslation : Bool
  cjkChar : Char → Bool
  translator : String → String

/-- translation_pipeline.py `contains_cjk` (lines 20-26): the text holds at
least one character whose unicode name mentions HANGUL, CJK, HIRAGANA or
KATAKANA — the character-level test is the environment's classifier. -/
def contains_cjk (env : WorkerEnv) (text : String) : Bool :=
  text.data.any env.cjkChar

/-- translation_pipeline.py `translate_prompt` (lines 275-294): return the
text untouched when translation is disabled or the text has no CJK
character; otherwise run the translator and report whether the output
differs from the input. -/
def translate_prompt (env : WorkerEnv) (text : String) : String × Bool :=
  if !env.enableTranslation then (text, false)
  else if !(contains_cjk env text) then (text, false)
  else
    let translated := env.translator text
    (translated, translated != text)

/-- Arguments passed to `pipeline.generate` by the text-to-image worker
(image_generation.py lines 78-85).  The task forwards its `prompt` and
`negative_prompt` arguments verbatim: image_generation.py contains no call
into the translation pipeline, so the environment is unused here. -/
structure GenModelCall where
  prompt : String
  negative_prompt : String
  width : Int
  height : Int
  num_images : Int
  seed : Option Int
deriving DecidableEq, Repr

/-- The model invocation of the `generate_image` worker task
(image_generation.py lines 78-85): `pipeline.generate(prompt=prompt, …)`
with the incoming arguments unchanged. -/
def generate_image_model_call (_env : WorkerEnv) (prompt negative_prompt : String)
    (width height num_images : Int) (seed : Option Int) : GenModelCall :=
  { prompt := prompt, negative_prompt := negative_prompt, width := width,
    height := height, num_images := num_images, seed := seed }

/-- Dimension rounding performed inside `ImagePipeline.generate`
(ml/pipeline.py lines 89-91): `width = (width // 8) * 8`, Python floor
division. -/
def pipeline_round_dim (w : Int) : Int := (Int.fdiv w 8) * 8

/-- The prompt handling of the `inpaint_image` worker task (inpainting.py
lines 108-120 for the translation side-pass and lines 204-206 for the result
fields): remember the original prompt, translate prompt and negative prompt
when needed, use the translations for the model call. -/
structure PromptFlow where
  model_prompt : String
  model_negative : String
  original_prompt : String
  translated_prompt : Option String
  was_translated : Bool
deriving DecidableEq, Repr

/-- Transcription of inpainting.py lines 108-120 and 204-206. -/
def inpaint_prompt_flow (env : WorkerEnv) (prompt negative_prompt : String) :
    PromptFlow :=
  let original_prompt := prompt
  let t := translate_prompt env prompt
  let prompt1 := if t.2 then t.1 else prompt
  let neg1 :=
    if negative_prompt == "" then negative_prompt
    else
      let tn := translate_prompt env negative_prompt
      if tn.2 then tn.1 else negative_prompt
  { model_prompt := prompt1, model_negative := neg1,
    original_prompt := original_prompt,
    translated_prompt := if t.2 then some t.1 else none,
    was_translated := t.2 }

/-- The result dictionary built by a successful `inpaint_image` run
(inpainting.py lines 199-207), given the uploaded image entries and the
stored mask key. -/
def inpaint_success_result (env : WorkerEnv) (task_id prompt : String)
    (image_results : List ImageEntry) (mask_object_name : String) :
    WorkerResult :=
  let flow := inpaint_prompt_flow env prompt ""
  { task_id := task_id, status := "completed", images := image_results,
    mask_object_name := some mask_object_name, error := none,
    original_prompt := some flow.original_prompt,
    translated_prompt := flow.translated_prompt,
    was_translated := flow.was_translated }

/-- One outcome of a celery task body: return a result dictionary through
the queue, or raise `self.retry(countdown=…)` so the broker re-delivers
after the countdown. -/
inductive TaskStep where
  | done (res : WorkerResult)
  | retryAfter (countdown : Nat)
deriving DecidableEq, Repr

/-- The retry skeleton of the `generate_image` worker task
(image_generation.py lines 32-39 and 129-143, `max_retries=2`): the try
block (pipeline call plus uploads, abstracted as `run`, indexed by the
current `self.request.retries`) either yields the image entries or raises;
on an exception the task retries with `countdown = 5 * (retries + 1)` while
`retries < max_retries`, and past that returns a failed-status dictionary
instead of raising. -/
def generate_image_attempt (run : Nat → Except String (List ImageEntry))
    (task_id : String) (retries max_retries : Nat) : TaskStep :=
  match run retries with
  | .ok image_results =>
    .done { task_id := task_id, status := "completed",
            images := image_results }
  | .error e =>
    if retries < max_retries then .retryAfter (5 * (retries + 1))
    else
      .done { task_id := task_id, status := "failed", images := [],
              error := some e }

/-- The broker's view of retrying: run the body, and on `retryAfter` record
the countdown and re-deliver with `retries + 1`.  `fuel` bounds the
recursion; `max_retries + 1` deliveries always suffice. -/
def celery_drive (body : Nat → TaskStep) :
    Nat → Nat → List Nat × Option WorkerResult
  | 0, _ => ([], none)
  | fuel + 1, retries =>
    match body retries with
    | .done res => ([], some res)
    | .retryAfter c =>
      let rest := celery_drive body fuel (retries + 1)
      (c :: rest.1, rest.2)

/-- A full queue-side execution of `generate_image` with its configured
`max_retries = 2`: the list of retry countdowns and the final queue
resolution. -/
def run_generate_image (run : Nat → Except String (List ImageEntry))
    (task_id : String) : List Nat × Option WorkerResult :=
  celery_drive (fun r => generate_image_attempt run task_id r 2) 3 0

end Zimage.Worker

namespace Zimage.Reconciler

open Zimage

/-- The queue's view of a task result as the reconcilers consume it:
`notReady st` is `ready() = False` with broker state `st`; `readyOk res` is a
ready, successfully resolved entry whose value is the result dictionary (or
`None`, for a task that returned nothing); `readyExc msg` is a ready entry
whose celery task itself raised, `str(result)` being the exception text. -/
inductive CeleryView where
  | notReady (state : String)
  | readyOk (res : Option WorkerResult)
  | readyExc (msg : String)
deriving DecidableEq, Repr

/-- The `Image` row inserted for one result entry by `get_task_status`
(tasks.py lines 81-92): the row takes a fresh uuid4 primary key (modelled by
a counter-supplied id) and copies prompt data from the task row. -/
def mkGenerationImage (task : GenerationTask) (fresh_id : String)
    (e : ImageEntry) : ImageRow :=
  { id := fresh_id, user_id := task.user_id, task_id := some task.id,
    url := e.url, thumbnail_url := none, object_name := e.object_name,
    prompt := some task.prompt, negative_prompt := task.negative_prompt,
    width := e.width, height := e.height, seed := e.seed }

/-- The read-modify-write section of `GET /tasks/id` (tasks.py lines
60-103), applied to a snapshot of the task row: when the row is non-terminal
and has a queue handle, promote it according to the queue view, inserting an
`Image` row per result entry on completion.  The status update is a plain
attribute assignment on the snapshot (no conditional
`WHERE status IN (pending, processing)` clause) and the inserts are plain
`db.add` appends. -/
def reconcile_generation (now : ℚ) (view : CeleryView) (next_id : Nat)
    (task : GenerationTask) : GenerationTask × List ImageRow :=
  if (task.status = .pending ∨ task.status = .processing)
      ∧ pyStrTruthy task.celery_task_id then
    match view with
    | .readyOk task_result =>
      match task_result with
      | some r =>
        if r.status == "failed" then
          ({ task with status := .failed,
                       error := some (r.error.getD "이미지 생성에 실패했습니다."),
                       result := some r, completed_at := some now }, [])
        else
          let task' :=
            { task with status := .completed, result := some r,
                        completed_at := some now }
          (task',
           (r.images.enum.map fun p =>
             mkGenerationImage task' (toString (next_id + p.1)) p.2))
      | none =>
        ({ task with status := .completed, result := none,
                     completed_at := some now }, [])
    | .readyExc msg =>
      ({ task with status := .failed, error := some msg,
                   completed_at := some now }, [])
    | .notReady st =>
      if st == "STARTED" then
        ({ task with status := .processing,
                     started_at := if task.started_at.isNone then some now
                                   else task.started_at }, [])
      else (task, [])
  else (task, [])

/-- A minimal database holding the generation task under scrutiny, the
`images` table and the uuid4 supply. -/
structure GenDB where
  task : GenerationTask
  images : List ImageRow
  next_id : Nat
deriving DecidableEq, Repr

/-- One complete poll of `GET /tasks/id`: read the row, reconcile against
the queue view, commit the updated row and the inserted images. -/
def poll_commit (now : ℚ) (view : CeleryView) (db : GenDB) : GenDB :=
  let r := reconcile_generation now view db.next_id db.task
  { task := r.1, images := db.images ++ r.2, next_id := db.next_id + r.2.length }

/-- Two polls one after the other, the second reading the first's committed
state. -/
def sequential_two_polls (now₁ now₂ : ℚ) (view : CeleryView) (db : GenDB) :
    GenDB :=
  poll_commit now₂ view (poll_commit now₁ view db)

/-- Two concurrent polls: each request's session reads the same pre-commit
snapshot of the task row (both `select` statements run before either
session's commit), computes its updates, and both sessions then commit —
inserts append, and the row writes land one after the other.  The second
session draws different fresh uuid4 values for its inserts. -/
def concurrent_two_polls (now₁ now₂ : ℚ) (view : CeleryView) (db : GenDB) :
    GenDB :=
  let r₁ := reconcile_generation now₁ view db.next_id db.task
  let r₂ := reconcile_generation now₂ view (db.next_id + r₁.2.length) db.task
  { task := r₂.1, images := db.images ++ r₁.2 ++ r₂.2,
    next_id := db.next_id + r₁.2.length + r₂.2.length }

/-- Number of `Image` rows carrying a given task id. -/
def image_count_for (db : GenDB) (task_id : String) : Nat :=
  (db.images.filter fun i => i.task_id == some task_id).length

/-- One image entry of the `GET /tasks/id` response (schemas/task.py
`GeneratedImageInfo`, built in tasks.py lines 106-115). -/
structure GeneratedImageInfo where
  id : String
  url : String
  width : Int
  height : Int
  seed : Option Int
deriving DecidableEq, Repr

/-- The `GET /tasks/id` response body (schemas/task.py
`TaskStatusResponse`). -/
structure TaskStatusResponse where
  task_id : String
  status : String
  images : List GeneratedImageInfo
  error : Option String
  created_at : ℚ
  started_at : Option ℚ
  completed_at : Option ℚ
  progress : Option Int
  progress_message : Option String
  estimated_seconds : Option ℚ
  elapsed_seconds : Option ℚ
deriving DecidableEq, Repr

/-- The response-building tail of `GET /tasks/id` (tasks.py lines 105-173):
terminal statuses answer from the cached row alone (progress 100 or 0, no
time estimates); non-terminal statuses estimate progress from elapsed wall
time against `estimate_generation_time`. -/
def build_generation_status (now : ℚ) (task : GenerationTask) :
    TaskStatusResponse :=
  let images :=
    if task.status = .completed then
      match task.result with
      | some r => r.images.map fun e =>
          ({ id := e.id, url := e.url, width := e.width, height := e.height,
             seed := e.seed } : GeneratedImageInfo)
      | none => []
    else []
  let base : TaskStatusResponse :=
    { task_id := task.id, status := task.status.value, images := images,
      error := task.error, created_at := task.created_at,
      started_at := task.started_at, completed_at := task.completed_at,
      progress := none, progress_message := none,
      estimated_seconds := none, elapsed_seconds := none }
  match task.status with
  | .completed => { base with progress := some 100,
                              progress_message := some "완료" }
  | .failed => { base with progress := some 0,
                           progress_message := some "실패" }
  | _ =>
    let estimated_seconds :=
      Api.estimate_generation_time task.width task.height task.num_images
    let start_time := task.started_at.getD task.created_at
    let elapsed_seconds := now - start_time
    let progress0 : Int :=
      if 0 < estimated_seconds then
        min 95 (pyInt (elapsed_seconds / estimated_seconds * 100))
      else 0
    let pm :=
      if task.status = .pending then (some "대기 중...", (5 : Int))
      else if elapsed_seconds < 2 then
        (some "모델 초기화 중...", max progress0 10)
      else if elapsed_seconds < 5 then
        (some "이미지 생성 준비 중...", max progress0 20)
      else
        let remaining := max 0 (estimated_seconds - elapsed_seconds)
        if 0 < remaining then
          (some ("이미지 생성 중... (약 " ++ toString (pyInt remaining)
                 ++ "초 남음)"), progress0)
        else (some "이미지 생성 마무리 중...", (90 : Int))
    { base with progress := some pm.2, progress_message := pm.1,
                estimated_seconds := some estimated_seconds,
                elapsed_seconds := some elapsed_seconds }

/-- The edited-image `Image` row inserted by the inpaint reconciler
(inpaint.py lines 154-171): the id comes from the worker payload, `task_id`
is left unset, and metadata records the inpainting provenance. -/
def mkInpaintImage (task : InpaintTask) (e : ImageEntry) : ImageRow :=
  { id := e.id, user_id := task.user_id, task_id := none, url := e.url,
    thumbnail_url := none, object_name := e.object_name,
    prompt := task.prompt, negative_prompt := task.negative_prompt,
    width := e.width, height := e.height, seed := e.seed,
    image_metadata :=
      [("type", "inpainted"),
       ("original_image_id", task.original_image_id),
       ("inpaint_task_id", task.id),
       ("strength", toString task.strength)] }

/-- The `EditHistory` row inserted by the inpaint reconciler (inpaint.py
lines 180-198) for one result entry; `images` is the images table consulted
for the original's thumbnail. -/
def mkInpaintHistory (task : InpaintTask) (images : List ImageRow)
    (fresh_id : String) (e : ImageEntry) : EditHistoryRow :=
  let orig := images.find? fun i => i.id == task.original_image_id
  { id := fresh_id, user_id := task.user_id,
    original_image_id := task.original_image_id, edited_image_id := e.id,
    inpaint_task_id := some task.id, edit_type := "inpaint",
    prompt := task.prompt, negative_prompt := task.negative_prompt,
    strength := some task.strength,
    mask_object_name := task.mask_object_name,
    original_thumbnail_url := orig.map fun o => pyStrOr o.thumbnail_url o.url,
    edited_thumbnail_url := some e.url,
    edit_metadata := some { guidance_scale := some task.guidance_scale,
                            num_inference_steps := some task.num_inference_steps,
                            seed := e.seed } }

/-- The read-modify-write section of `GET /inpaint/tasks/id` (inpaint.py
lines 136-210): for a non-terminal row with a queue handle, a ready
dictionary with status completed promotes the row, stores result and mask
key, and inserts an `Image` plus an `EditHistory` row per result entry; a
ready failed dictionary marks failure; a ready non-dictionary value (such as
an exception instance) is ignored; broker state STARTED marks processing. -/
def reconcile_inpaint (now : ℚ) (view : CeleryView) (images : List ImageRow)
    (next_id : Nat) (task : InpaintTask) :
    InpaintTask × List ImageRow × List EditHistoryRow :=
  if task.status = .pending ∨ task.status = .processing then
    if pyStrTruthy task.celery_task_id then
      match view with
      | .readyOk (some r) =>
        if r.status == "completed" then
          let task' := { task with status := .completed, result := r.images,
                                   mask_object_name := r.mask_object_name,
                                   completed_at := some now }
          (task', task'.result.map (mkInpaintImage task'),
           task'.result.enum.map fun p =>
             mkInpaintHistory task' images (toString (next_id + p.1)) p.2)
        else if r.status == "failed" then
          ({ task with status := .failed, error := r.error,
                       completed_at := some now }, [], [])
        else (task, [], [])
      | .readyOk none => (task, [], [])
      | .readyExc _ => (task, [], [])
      | .notReady st =>
        if st == "STARTED" then
          ({ task with status := .processing,
                       started_at := if task.started_at.isNone then some now
                                     else task.started_at }, [], [])
        else (task, [], [])
    else (task, [], [])
  else (task, [], [])

end Zimage.Reconciler

namespace Zimage

open Zimage.Gateway Zimage.Api Zimage.Worker Zimage.Reconciler

/-- A worker result entry, used as a concrete payload in several scenarios. -/
def demoEntry : ImageEntry :=
  { id := "img-1", url := "http://minio.example/zimage/images/U/T/img-1.png",
    object_name := "images/U/T/img-1.png", width := 1024, height := 1024,
    seed := none }

/-- A completed worker result carrying exactly one image. -/
def demoPayload : WorkerResult :=
  { task_id := "T", status := "completed", images := [demoEntry] }

/-- A pending generation task awaiting its queue result. -/
def demoTask : GenerationTask :=
  { id := "T", user_id := "U", celery_task_id := some "C",
    status := .pending, error := none, prompt := "a cat",
    negative_prompt := none, width := 1024, height := 1024, num_images := 1,
    seed := none, result := none, created_at := 0, started_at := none,
    completed_at := none }

/-- The database before any poll: the pending task and an empty images
table. -/
def demoDB : GenDB := { task := demoTask, images := [], next_id := 0 }

/-- C1: the at-most-once materialization invariant fails on the code.  With
the queue result ready and carrying one image, two concurrent polls of
`GET /tasks/id` — both of whose sessions read the task row before either
commits, which the unconditional status update and the absence of any
unique constraint on `(task_id, image.id)` permit — insert two `Image` rows
for task `T` although the payload has a single image entry; sequential
polls insert exactly one. -/
theorem concurrent_polls_duplicate_images :
    demoPayload.images.length = 1
    ∧ image_count_for
        (concurrent_two_polls 10 11 (.readyOk (some demoPayload)) demoDB) "T" = 2
    ∧ image_count_for
        (sequential_two_polls 10 11 (.readyOk (some demoPayload)) demoDB) "T" = 1 :=
  ⟨rfl, rfl, rfl⟩

/-- C2: terminal immutability.  Once a generation or inpaint task row is
`completed` or `failed`, the status reconcilers leave the row untouched and
insert nothing, whatever the queue reports; and the generation status
response built from a terminal row does not depend on the polling time, so
every later poll returns the same cached fields. -/
theorem terminal_state_immutable
    (t : GenerationTask) (it : InpaintTask) (now now' now₁ now₂ : ℚ)
    (view view' : CeleryView) (nid nid' : Nat) (imgs : List ImageRow)
    (ht : t.status = .completed ∨ t.status = .failed)
    (hit : it.status = .completed ∨ it.status = .failed) :
    reconcile_generation now view nid t = (t, [])
    ∧ reconcile_inpaint now' view' imgs nid' it = (it, [], [])
    ∧ build_generation_status now₁ t = build_generation_status now₂ t := by
  rcases ht with h | h <;> rcases hit with h' | h' <;>
    simp [reconcile_generation, reconcile_inpaint, build_generation_status,
          h, h']

/-- A completed generation task with a cached result. -/
def demoDoneTask : GenerationTask :=
  { demoTask with status := .completed, result := some demoPayload,
                  completed_at := some 9 }

/-- A failed inpaint task. -/
def demoDoneInpaint : InpaintTask :=
  { id := "IT", user_id := "U", celery_task_id := some "IC",
    original_image_id := "I0", status := .failed,
    error := some "boom", prompt := some "fix it", negative_prompt := none,
    strength := 1, guidance_scale := 7, num_inference_steps := 30,
    seed := none, mask_object_name := none, result := [], created_at := 0,
    started_at := some 1, completed_at := some 2 }

/-- C2 witness: `terminal_state_immutable` instantiated on a concrete
completed generation task and a concrete failed inpaint task. -/
theorem terminal_state_immutable_witness :
    reconcile_generation 20 (.readyOk (some demoPayload)) 0 demoDoneTask
      = (demoDoneTask, [])
    ∧ reconcile_inpaint 21 (.notReady "STARTED") [] 0 demoDoneInpaint
      = (demoDoneInpaint, [], [])
    ∧ build_generation_status 22 demoDoneTask
      = build_generation_status 23 demoDoneTask :=
  terminal_state_immutable demoDoneTask demoDoneInpaint 20 21 22 23
    (.readyOk (some demoPayload)) (.notReady "STARTED") 0 0 []
    (Or.inl rfl) (Or.inr rfl)

/-- A refresh token as auth-service issues it, signed with the configured
secret, created at time 0. -/
def demoRefreshToken : Jwt :=
  create_refresh_token "your-super-secret-jwt-key" "u1" 0

/-- C3: the gateway does not reject non-access tokens.  `PUBLIC_PATHS`
starts with "/" and the public test is `path.startswith(p)`, so every path
— including `/v1/images/generate` — is treated as public and forwarded with
no validation and no context; and even the token-validation tail, were it
reached, never inspects the `type` claim: a valid unexpired refresh token
gets `user_id` and role attached instead of a 401. -/
theorem refresh_token_passes_gateway :
    isPublicPath "/v1/images/generate" = true
    ∧ auth_dispatch "your-super-secret-jwt-key" 100 "/v1/images/generate"
        (.bearer demoRefreshToken) = .forwarded none
    ∧ auth_token_check "your-super-secret-jwt-key" 100 (.bearer demoRefreshToken)
        = .ok { user_id := some "u1", role := "user" }
    ∧ demoRefreshToken.payload.typ = some "refresh"
    ∧ (100 : ℚ) < demoRefreshToken.payload.exp := by
  have hpub : isPublicPath "/v1/images/generate" = true := by decide
  have hexp : (100 : ℚ) < demoRefreshToken.payload.exp := by
    norm_num [demoRefreshToken, create_refresh_token, refreshTokenLifetime]
  refine ⟨hpub, by simp [auth_dispatch, hpub], ?_, rfl, hexp⟩
  norm_num [auth_token_check, jwt_decode, demoRefreshToken,
            create_refresh_token, refreshTokenLifetime]

end Zimage

namespace Zimage

open Zimage.Worker

/-- C4: worker retry policy.  For every behaviour of the text-to-image task
body, the queue entry resolves with a result dictionary (never an unhandled
exception); the retry countdowns form a prefix of the sequence
5·1, 5·2 — so at most 2 retries, each with backoff 5·(attempt+1) seconds —
and when all three attempts raise, the final resolution is the
failed-status dictionary carrying the last error. -/
theorem generate_retry_policy (run : Nat → Except String (List ImageEntry))
    (task_id : String) :
    (∃ res, (run_generate_image run task_id).2 = some res)
    ∧ ((run_generate_image run task_id).1 = []
       ∨ (run_generate_image run task_id).1 = [5]
       ∨ (run_generate_image run task_id).1 = [5, 10])
    ∧ (∀ e₀ e₁ e₂, run 0 = .error e₀ → run 1 = .error e₁ → run 2 = .error e₂ →
        (run_generate_image run task_id).1 = [5, 10]
        ∧ (run_generate_image run task_id).2
            = some { task_id := task_id, status := "failed", images := [],
                     error := some e₂ }) := by
  rcases h0 : run 0 with e0 | v0
  · rcases h1 : run 1 with e1 | v1
    · rcases h2 : run 2 with e2 | v2
      · have hrun : run_generate_image run task_id
            = ([5, 10], some { task_id := task_id, status := "failed",
                               images := [], error := some e2 }) := by
          simp [run_generate_image, celery_drive, generate_image_attempt,
                h0, h1, h2]
        refine ⟨⟨_, by rw [hrun]⟩, by rw [hrun]; simp, ?_⟩
        intro f0 f1 f2 hh0 hh1 hh2
        injection hh2 with he
        subst he
        exact ⟨by rw [hrun], by rw [hrun]⟩
      · have hrun : run_generate_image run task_id
            = ([5, 10], some { task_id := task_id, status := "completed",
                               images := v2 }) := by
          simp [run_generate_image, celery_drive, generate_image_attempt,
                h0, h1, h2]
        refine ⟨⟨_, by rw [hrun]⟩, by rw [hrun]; simp, ?_⟩
        intro f0 f1 f2 hh0 hh1 hh2
        simp at hh2
    · have hrun : run_generate_image run task_id
          = ([5], some { task_id := task_id, status := "completed",
                         images := v1 }) := by
        simp [run_generate_image, celery_drive, generate_image_attempt,
              h0, h1]
      refine ⟨⟨_, by rw [hrun]⟩, by rw [hrun]; simp, ?_⟩
      intro f0 f1 f2 hh0 hh1 hh2
      simp at hh1
  · have hrun : run_generate_image run task_id
        = ([], some { task_id := task_id, status := "completed",
                      images := v0 }) := by
      simp [run_generate_image, celery_drive, generate_image_attempt, h0]
    refine ⟨⟨_, by rw [hrun]⟩, by rw [hrun]; simp, ?_⟩
    intro f0 f1 f2 hh0 hh1 hh2
    simp at hh0

/-- C4 witness: `generate_retry_policy` instantiated on a body that raises
"CUDA out of memory" at every attempt: two retries with countdowns 5 and 10,
then a failed-status dictionary through the queue. -/
theorem generate_retry_policy_witness :
    (run_generate_image (fun _ => .error "CUDA out of memory") "T").1 = [5, 10]
    ∧ (run_generate_image (fun _ => .error "CUDA out of memory") "T").2
        = some { task_id := "T", status := "failed", images := [],
                 error := some "CUDA out of memory" } :=
  (generate_retry_policy (fun _ => .error "CUDA out of memory") "T").2.2
    "CUDA out of memory" "CUDA out of memory" "CUDA out of memory" rfl rfl rfl

end Zimage

namespace Zimage.Gateway

/-- Pruning at a later instant subsumes pruning at an earlier one. -/
theorem rlPrune_idem (a b : ℚ) (h : a ≤ b) (s : List ℚ) :
    rlPrune b (rlPrune a s) = rlPrune b s := by
  have hpt : ∀ r : ℚ,
      (decide (b - rlWindow < r) && decide (a - rlWindow < r))
        = decide (b - rlWindow < r) := by
    intro r
    by_cases hr : b - rlWindow < r
    · have ha : a - rlWindow < r := lt_of_le_of_lt (by linarith) hr
      simp [hr, ha]
    · simp [hr]
  simp only [rlPrune, List.filter_filter, hpt]

/-- Pruning at `t` keeps a request recorded at `t` itself. -/
theorem rlPrune_concat (t : ℚ) (A : List ℚ) :
    rlPrune t (A ++ [t]) = rlPrune t A ++ [t] := by
  have hd : t - rlWindow < t := by unfold rlWindow; linarith
  simp [rlPrune, List.filter_append, hd]

/-- Generalized window bound for the rate limiter: running requests at
nondecreasing times from a state that prunes an accepted-so-far list `A`,
the accepted requests falling in any window of width `rlWindow` never exceed
`N`, unless `A` itself already did. -/
theorem rl_window_aux (N : Nat) (w : ℚ) :
    ∀ (ts A : List ℚ) (now : ℚ),
      List.Chain' (· ≤ ·) (now :: ts) →
      ((A ++ rlAccepted N (rlPrune now A) ts).filter
          (fun x => decide (w < x ∧ x ≤ w + rlWindow))).length
        ≤ max N ((A.filter
            (fun x => decide (w < x ∧ x ≤ w + rlWindow))).length) := by
  intro ts
  induction ts with
  | nil =>
    intro A now _
    simp [rlAccepted]
  | cons t ts ih =>
    intro A now hch
    have hnt : now ≤ t := (List.chain'_cons.mp hch).1
    have hch' : List.Chain' (· ≤ ·) (t :: ts) := (List.chain'_cons.mp hch).2
    by_cases hc : N ≤ (rlPrune t A).length
    · have hstep : rlStep N (rlPrune now A) t = (false, rlPrune t A) := by
        simp [rlStep, rlPrune_idem now t hnt, hc]
      have hacc : rlAccepted N (rlPrune now A) (t :: ts)
          = rlAccepted N (rlPrune t A) ts := by
        simp [rlAccepted, hstep]
      rw [hacc]
      exact ih A t hch'
    · have hstep : rlStep N (rlPrune now A) t
          = (true, rlPrune t A ++ [t]) := by
        simp [rlStep, rlPrune_idem now t hnt, hc]
      have hacc : rlAccepted N (rlPrune now A) (t :: ts)
          = t :: rlAccepted N (rlPrune t (A ++ [t])) ts := by
        simp [rlAccepted, hstep, rlPrune_concat]
      rw [hacc]
      have hIH := ih (A ++ [t]) t hch'
      have hre : A ++ t :: rlAccepted N (rlPrune t (A ++ [t])) ts
          = (A ++ [t]) ++ rlAccepted N (rlPrune t (A ++ [t])) ts := by
        simp
      rw [hre]
      refine le_trans hIH ?_
      by_cases hw : (w < t ∧ t ≤ w + rlWindow)
      · have hsub : (A.filter
            (fun x => decide (w < x ∧ x ≤ w + rlWindow))).length
              ≤ (rlPrune t A).length := by
          apply List.Sublist.length_le
          apply List.monotone_filter_right
          intro a ha
          simp only [decide_eq_true_eq] at ha
          simp only [rlWindow] at *
          simp only [decide_eq_true_eq]
          obtain ⟨hw1, hw2⟩ := hw
          linarith [ha.1, ha.2]
        have hlen : ((A ++ [t]).filter
            (fun x => decide (w < x ∧ x ≤ w + rlWindow))).length
              = (A.filter (fun x => decide (w < x ∧ x ≤ w + rlWindow))).length
                + 1 := by
          simp [List.filter_append, hw]
        rw [hlen]
        have hN : (A.filter
            (fun x => decide (w < x ∧ x ≤ w + rlWindow))).length + 1 ≤ N := by
          omega
        calc max N ((A.filter
              (fun x => decide (w < x ∧ x ≤ w + rlWindow))).length + 1)
            = N := max_eq_left hN
          _ ≤ _ := le_max_left _ _
      · have hlen : ((A ++ [t]).filter
            (fun x => decide (w < x ∧ x ≤ w + rlWindow))).length
              = (A.filter (fun x => decide (w < x ∧ x ≤ w + rlWindow))).length := by
          simp [List.filter_append, hw]
        rw [hlen]

/-- A burst of identical request instants against a state already holding
`j` requests at that instant: the first `N - j` are accepted, the rest are
rejected. -/
theorem rlFlags_replicate (N : Nat) (t : ℚ) :
    ∀ (m j : Nat), rlFlags N (List.replicate j t) (List.replicate m t)
      = List.replicate (min m (N - j)) true
        ++ List.replicate (m - (N - j)) false := by
  intro m
  induction m with
  | zero => intro j; simp [rlFlags]
  | succ m ih =>
    intro j
    have hd : t - rlWindow < t := by unfold rlWindow; linarith
    have hpr : rlPrune t (List.replicate j t) = List.replicate j t := by
      apply List.filter_eq_self.mpr
      intro a ha
      rw [List.eq_of_mem_replicate ha]
      simp [hd]
    by_cases hc : N ≤ j
    · have hstep : rlStep N (List.replicate j t) t
          = (false, List.replicate j t) := by
        simp [rlStep, hpr, hc]
      have hf : rlFlags N (List.replicate j t) (List.replicate (m + 1) t)
          = false :: rlFlags N (List.replicate j t) (List.replicate m t) := by
        simp [List.replicate_succ, rlFlags, hstep]
      rw [hf, ih j]
      have hNj : N - j = 0 := by omega
      simp [hNj, List.replicate_succ]
    · have hstep : rlStep N (List.replicate j t) t
          = (true, List.replicate (j + 1) t) := by
        simp [rlStep, hpr, hc, List.replicate_succ']
      have hf : rlFlags N (List.replicate j t) (List.replicate (m + 1) t)
          = true :: rlFlags N (List.replicate (j + 1) t) (List.replicate m t) := by
        simp [List.replicate_succ, rlFlags, hstep]
      rw [hf, ih (j + 1)]
      have h1 : min (m + 1) (N - j) = min m (N - (j + 1)) + 1 := by omega
      have h2 : (m + 1) - (N - j) = m - (N - (j + 1)) := by omega
      rw [h1, h2, List.replicate_succ]
      simp

end Zimage.Gateway

namespace Zimage

open Zimage.Gateway

/-- C5: rate-limit boundary for one client ip.  For any nondecreasing
sequence of request instants processed from an empty counter, at most `N`
requests are accepted inside any sliding window of 60 seconds; a burst of
`N + 1` requests inside one window is answered with `N` acceptances followed
by one rejection (the 429 path); and once every recorded instant lies at
least 60 seconds in the past, the next `N` requests are all accepted
again. -/
theorem rate_limit_boundary (N : Nat) (ts : List ℚ) (w t : ℚ)
    (s : List ℚ) (tq : ℚ)
    (hts : List.Chain' (· ≤ ·) ts)
    (hquiet : ∀ x ∈ s, x + rlWindow ≤ tq) :
    ((rlAccepted N [] ts).filter
        (fun x => decide (w < x ∧ x ≤ w + rlWindow))).length ≤ N
    ∧ rlFlags N [] (List.replicate (N + 1) t)
        = List.replicate N true ++ [false]
    ∧ rlFlags N s (List.replicate N tq) = List.replicate N true := by
  refine ⟨?_, ?_, ?_⟩
  · cases ts with
    | nil => simp [rlAccepted]
    | cons t0 ts0 =>
      have hch : List.Chain' (· ≤ ·) (t0 :: t0 :: ts0) :=
        List.chain'_cons.mpr ⟨le_refl t0, hts⟩
      have h := rl_window_aux N w (t0 :: ts0) [] t0 hch
      simpa [rlPrune] using h
  · have h := rlFlags_replicate N t (N + 1) 0
    simp only [Nat.sub_zero, List.replicate_zero] at h
    rw [h]
    have h1 : min (N + 1) N = N := by omega
    have h2 : (N + 1) - N = 1 := by omega
    rw [h1, h2]
    simp
  · rcases N with _ | n
    · simp [rlFlags]
    · have hpr : rlPrune tq s = [] := by
        apply List.filter_eq_nil_iff.mpr
        intro a ha
        have := hquiet a ha
        simp only [rlWindow] at *
        simp only [decide_eq_true_eq]
        push_neg
        linarith
      have hstep : rlStep (n + 1) s tq = (true, [tq]) := by
        simp [rlStep, hpr]
      have hf : rlFlags (n + 1) s (List.replicate (n + 1) tq)
          = true :: rlFlags (n + 1) [tq] (List.replicate n tq) := by
        simp [List.replicate_succ, rlFlags, hstep]
      rw [hf]
      have h1tq : [tq] = List.replicate 1 tq := by simp
      rw [h1tq, rlFlags_replicate (n + 1) tq n 1]
      have h1 : min n (n + 1 - 1) = n := by omega
      have h2 : n - (n + 1 - 1) = 0 := by omega
      rw [h1, h2]
      simp [List.replicate_succ]

/-- C5 witness: `rate_limit_boundary` with limit 3, the trace 0, 1, 2, 3, a
window starting at 0, a burst instant 5, and a quiet restart at 70 from an
empty state. -/
theorem rate_limit_boundary_witness :
    ((rlAccepted 3 [] [0, 1, 2, 3]).filter
        (fun x => decide ((0 : ℚ) < x ∧ x ≤ 0 + rlWindow))).length ≤ 3
    ∧ rlFlags 3 [] (List.replicate (3 + 1) (5 : ℚ))
        = List.replicate 3 true ++ [false]
    ∧ rlFlags 3 [] (List.replicate 3 (70 : ℚ)) = List.replicate 3 true :=
  rate_limit_boundary 3 [0, 1, 2, 3] 0 5 [] 70
    (List.Chain.cons (by decide)
      (List.Chain.cons (by decide) (List.Chain.cons (by decide) List.Chain.nil)))
    (by simp)

end Zimage

namespace Zimage

open Zimage.Api

/-- An edit-history row owned by user `u1` with a stored mask. -/
def demoHistory : EditHistoryRow :=
  { id := "H1", user_id := "u1", original_image_id := "I0",
    edited_image_id := "I1", inpaint_task_id := some "IT0",
    edit_type := "inpaint", prompt := some "red hat",
    negative_prompt := none, strength := some 1,
    mask_object_name := some "masks/u1/IT0/m.png",
    original_thumbnail_url := none, edited_thumbnail_url := none,
    edit_metadata := none }

/-- An image owned by a different user, `u2`. -/
def demoForeignImage : ImageRow :=
  { id := "I2", user_id := "u2", task_id := none,
    url := "http://minio.example/zimage/images/u2/T2/I2.png",
    thumbnail_url := none, object_name := "images/u2/T2/I2.png",
    prompt := some "a dog", negative_prompt := none, width := 512,
    height := 512, seed := none }

/-- Object storage holding the demo mask. -/
def demoReplayEnv : ReplayEnv :=
  { minioGet := fun k => if k == "masks/u1/IT0/m.png" then some "MASKBYTES"
                         else none,
    b64encode := fun s => s ++ "==" }

/-- C6 counterexample: user `u1` replays their history `H1` against image
`I2` owned by `u2`, and the replay succeeds — it creates an `InpaintTask`
for `u1` whose `original_image_id` is `u2`'s image and enqueues that image's
URL — whereas the claim says such a replay is rejected. -/
theorem replay_foreign_target_accepted :
    ((replay_edit demoReplayEnv [demoHistory] [demoForeignImage] (some "u1")
        "H1" "I2" "N1" "CN" 0).toOption.map
      fun o => (o.task.user_id, o.task.original_image_id,
                o.kwargs.original_image_url))
      = some ("u1", "I2", demoForeignImage.url)
    ∧ demoForeignImage.user_id = "u2"
    ∧ ("u2" : String) ≠ "u1" := ⟨rfl, rfl, by decide⟩

/-- C6 (amended): replaying an edit-history entry succeeds only when the
history row exists for the caller (else 404) and carries a stored mask (else
400), and the target image exists (else 404); the target's owner is not
checked, so on success — for a target image of any owner — an `InpaintTask`
is created for the caller referencing the target image, with prompt,
negative prompt and strength drawn from the history row. -/
theorem replay_guard_behaviour (env : ReplayEnv)
    (histories : List EditHistoryRow) (images : List ImageRow)
    (uid : Option String) (hid tgt nid cid : String) (now : ℚ) :
    (histories.find? (fun hh => hh.id == hid && hh.user_id == pyUser uid)
        = none →
      replay_edit env histories images uid hid tgt nid cid now
        = .error (404, "Edit history not found"))
    ∧ (∀ history, histories.find?
          (fun hh => hh.id == hid && hh.user_id == pyUser uid) = some history →
        pyStrTruthy history.mask_object_name = false →
        replay_edit env histories images uid hid tgt nid cid now
          = .error (400, "No mask available for this edit"))
    ∧ (∀ history, histories.find?
          (fun hh => hh.id == hid && hh.user_id == pyUser uid) = some history →
        pyStrTruthy history.mask_object_name = true →
        images.find? (fun i => i.id == tgt) = none →
        replay_edit env histories images uid hid tgt nid cid now
          = .error (404, "Target image not found"))
    ∧ (∀ history target bytes, histories.find?
          (fun hh => hh.id == hid && hh.user_id == pyUser uid) = some history →
        pyStrTruthy history.mask_object_name = true →
        images.find? (fun i => i.id == tgt) = some target →
        env.minioGet (history.mask_object_name.getD "") = some bytes →
        ((replay_edit env histories images uid hid tgt nid cid now).toOption.map
            fun o => (o.task.user_id, o.task.original_image_id, o.task.prompt,
                      o.task.negative_prompt, o.task.strength,
                      o.kwargs.original_image_url, o.resp.status))
          = some (pyUser uid, tgt, history.prompt, history.negative_prompt,
                  pyFloatOr history.strength 0.85, target.url, "pending")) := by
  refine ⟨?_, ?_, ?_, ?_⟩
  · intro hfind
    simp [replay_edit, hfind]
  · intro history hfind hmask
    simp [replay_edit, hfind, hmask]
  · intro history hfind hmask htgt
    simp [replay_edit, hfind, hmask, htgt]
  · intro history target bytes hfind hmask htgt hbytes
    simp [replay_edit, hfind, hmask, htgt, hbytes, Except.toOption]

/-- C6 witness: `replay_guard_behaviour`'s success case instantiated on the
demo history, the foreign-owned target image and the demo object store. -/
theorem replay_guard_behaviour_witness :
    ((replay_edit demoReplayEnv [demoHistory] [demoForeignImage] (some "u1")
        "H1" "I2" "N1" "CN" 0).toOption.map
      fun o => (o.task.user_id, o.task.original_image_id, o.task.prompt,
                o.task.negative_prompt, o.task.strength,
                o.kwargs.original_image_url, o.resp.status))
      = some (pyUser (some "u1"), "I2", demoHistory.prompt,
              demoHistory.negative_prompt, pyFloatOr demoHistory.strength 0.85,
              demoForeignImage.url, "pending") :=
  (replay_guard_behaviour demoReplayEnv [demoHistory] [demoForeignImage]
    (some "u1") "H1" "I2" "N1" "CN" 0).2.2.2 demoHistory demoForeignImage
    "MASKBYTES" rfl rfl rfl rfl

end Zimage

namespace Zimage

open Zimage.Worker Zimage.Reconciler

/-- A worker environment with translation enabled, a Hangul-syllable CJK
classifier and a translator sending the Korean prompt to English. -/
def demoWorkerEnv : WorkerEnv :=
  { enableTranslation := true,
    cjkChar := fun c =>
      decide (0xAC00 ≤ c.toNat) && decide (c.toNat ≤ 0xD7A3),
    translator := fun s => if s == "고양이" then "cat" else s }

/-- C7 counterexample: with translation enabled and a CJK prompt, the
text-to-image worker passes the original prompt — not the translator's
output — to `pipeline.generate` (image_generation.py never calls the
translation pipeline), while the inpaint worker does pass the
translation. -/
theorem generate_worker_skips_translation :
    demoWorkerEnv.enableTranslation = true
    ∧ contains_cjk demoWorkerEnv "고양이" = true
    ∧ demoWorkerEnv.translator "고양이" = "cat"
    ∧ ("고양이" : String) ≠ "cat"
    ∧ (generate_image_model_call demoWorkerEnv "고양이" "" 1024 1024 1
        none).prompt = "고양이"
    ∧ (inpaint_prompt_flow demoWorkerEnv "고양이" "").model_prompt = "cat" := by
  refine ⟨rfl, by decide, by decide, by decide, rfl, by decide⟩

/-- C7 (amended): the translation side-pass exists only on the inpaint
worker.  When translation is enabled and the prompt contains CJK, the
inpaint model call receives the translator's output while the result
payload's original-prompt field keeps the submitted prompt; the stored task
row's prompt — written at submission and never touched by the reconciler —
also keeps the original; the text-to-image worker passes its prompt to the
model unchanged. -/
theorem translation_sidepass_inpaint_only (env : WorkerEnv) (p np : String)
    (tid mask : String) (imgs : List ImageEntry)
    (henv : env.enableTranslation = true)
    (hcjk : contains_cjk env p = true) :
    (inpaint_prompt_flow env p np).model_prompt = env.translator p
    ∧ (inpaint_prompt_flow env p np).original_prompt = p
    ∧ (inpaint_success_result env tid p imgs mask).original_prompt = some p
    ∧ (∀ (w h n : Int) (s : Option Int),
        (generate_image_model_call env p np w h n s).prompt = p)
    ∧ (∀ (now : ℚ) (view : CeleryView) (imgs2 : List ImageRow) (nid : Nat)
        (it : InpaintTask),
        ((reconcile_inpaint now view imgs2 nid it).1).prompt = it.prompt)
    ∧ (∀ (images : List ImageRow) (uid : Option String) (r : Api.InpaintRequest)
        (tid2 cid : String) (now : ℚ) (out : Api.InpaintOutcome),
        Api.inpaint_submit images uid r tid2 cid now = .ok out →
        out.task.prompt = some r.prompt) := by
  refine ⟨?_, rfl, rfl, fun _ _ _ _ => rfl, ?_, ?_⟩
  · simp only [inpaint_prompt_flow, translate_prompt, henv, hcjk,
               Bool.not_true, Bool.false_eq_true, if_false, ite_false]
    by_cases h : env.translator p = p <;> simp [h]
  · intro now view imgs2 nid it
    rcases view with st | r | msg
    · simp only [reconcile_inpaint]
      split_ifs <;> rfl
    · rcases r with _ | r
      · simp only [reconcile_inpaint]
        split_ifs <;> rfl
      · simp only [reconcile_inpaint]
        split_ifs <;> rfl
    · simp only [reconcile_inpaint]
      split_ifs <;> rfl
  · intro images uid r tid2 cid now out h
    rcases hf : images.find? (fun i => i.id == r.original_image_id) with _ | img
    · simp [Api.inpaint_submit, hf] at h
    · simp [Api.inpaint_submit, hf] at h
      rw [← h]

/-- C7 witness: `translation_sidepass_inpaint_only` instantiated on the demo
environment with the prompt "고양이". -/
theorem translation_sidepass_inpaint_only_witness :
    (inpaint_prompt_flow demoWorkerEnv "고양이" "나쁜").model_prompt
      = demoWorkerEnv.translator "고양이"
    ∧ (inpaint_success_result demoWorkerEnv "T7" "고양이" []
        "masks/u/T7/m.png").original_prompt = some "고양이" := by
  have h := translation_sidepass_inpaint_only demoWorkerEnv "고양이" "나쁜"
    "T7" "masks/u/T7/m.png" [] rfl (by decide)
  exact ⟨h.1, h.2.2.1⟩

end Zimage

namespace Zimage

open Zimage.Api Zimage.Worker

/-- A request with a width that is not a multiple of 8 and a seed of 2^31,
both of which the claim says are rejected. -/
def cxGenerateRequest : ImageGenerateRequest :=
  { prompt := "a cat", negative_prompt := none, width := 300, height := 512,
    num_images := 1, seed := some (2 ^ 31) }

/-- C8 counterexample: validation accepts a request whose width 300 is not a
multiple of 8 and whose seed 2^31 lies outside the claimed range — the
pydantic schema checks only the 256..2048 and nonnegativity bounds, and the
worker pipeline later silently rounds the width down to 296. -/
theorem unaligned_width_and_oversize_seed_accepted :
    image_generate_request_valid cxGenerateRequest = true
    ∧ cxGenerateRequest.width % 8 ≠ 0
    ∧ cxGenerateRequest.seed = some (2 ^ 31)
    ∧ pipeline_round_dim cxGenerateRequest.width = 296 := by
  refine ⟨by decide, by decide, rfl, by decide⟩

/-- C8 (amended): validation enforces width and height within 256..2048,
num_images within 1..4 and a nonnegative seed — any violator is rejected —
but no multiple-of-8 or seed upper bound; every accepted request has its
parameters persisted unchanged on the pending task row, and the
multiple-of-8 requirement is met by the worker pipeline rounding dimensions
down. -/
theorem generate_validation_bounds :
    (∀ r : ImageGenerateRequest, image_generate_request_valid r = true →
      256 ≤ r.width ∧ r.width ≤ 2048 ∧ 256 ≤ r.height ∧ r.height ≤ 2048
      ∧ 1 ≤ r.num_images ∧ r.num_images ≤ 4 ∧ ∀ s, r.seed = some s → 0 ≤ s)
    ∧ (∀ (uid : Option String) (r : ImageGenerateRequest) (tid cid : String)
        (now : ℚ), image_generate_request_valid r = true →
        (generate_submit uid r tid cid now).task.prompt = r.prompt
        ∧ (generate_submit uid r tid cid now).task.negative_prompt
            = r.negative_prompt
        ∧ (generate_submit uid r tid cid now).task.width = r.width
        ∧ (generate_submit uid r tid cid now).task.height = r.height
        ∧ (generate_submit uid r tid cid now).task.num_images = r.num_images
        ∧ (generate_submit uid r tid cid now).task.seed = r.seed
        ∧ (generate_submit uid r tid cid now).task.status = .pending)
    ∧ (∀ w : Int, pipeline_round_dim w % 8 = 0)
    ∧ pipeline_round_dim 300 = 296 := by
  refine ⟨?_, ?_, ?_, by decide⟩
  · intro r h
    simp only [image_generate_request_valid, Bool.and_eq_true,
               decide_eq_true_eq, and_assoc] at h
    obtain ⟨h1, h2, hm, h4, h5, h6, h7, h8, h9, hseed⟩ := h
    refine ⟨h4, h5, h6, h7, h8, h9, ?_⟩
    intro s hs
    rw [hs] at hseed
    simpa using hseed
  · intro uid r tid cid now _
    exact ⟨rfl, rfl, rfl, rfl, rfl, rfl, rfl⟩
  · intro w
    exact Int.mul_emod_left _ 8

/-- C8 witness: `generate_validation_bounds` instantiated on the accepted
width-300 request. -/
theorem generate_validation_bounds_witness :
    (256 ≤ cxGenerateRequest.width ∧ cxGenerateRequest.width ≤ 2048
      ∧ 256 ≤ cxGenerateRequest.height ∧ cxGenerateRequest.height ≤ 2048
      ∧ 1 ≤ cxGenerateRequest.num_images ∧ cxGenerateRequest.num_images ≤ 4
      ∧ ∀ s, cxGenerateRequest.seed = some s → 0 ≤ s)
    ∧ (generate_submit none cxGenerateRequest "T8" "C8" 0).task.width
        = cxGenerateRequest.width :=
  ⟨generate_validation_bounds.1 cxGenerateRequest (by decide),
   (generate_validation_bounds.2.1 none cxGenerateRequest "T8" "C8" 0
     (by decide)).2.2.1⟩

end Zimage

namespace Zimage

open Zimage.Api Zimage.Reconciler

/-- The scenario S1 request: 1024x1024, one image. -/
def s1Request : ImageGenerateRequest :=
  { prompt := "a cat", negative_prompt := none, width := 1024, height := 1024,
    num_images := 1, seed := none }

/-- C9 counterexample: the 202 submission response for a 1024x1024
single-image request carries `estimated_time = 2` (generate.py line 74
computes `num_images * 2.0`), not the resolution-scaling-plus-model-load
value 17 that `estimate_generation_time` — the formula the claim describes —
yields for the same parameters. -/
theorem submission_estimate_not_resolution_formula :
    (generate_submit none s1Request "T9" "C9" 0).resp.estimated_time = 2
    ∧ estimate_generation_time 1024 1024 1 = 17
    ∧ ((2 : ℚ) ≠ 17) := by
  refine ⟨?_, ?_, by norm_num⟩
  · norm_num [generate_submit, s1Request]
  · norm_num [estimate_generation_time]

/-- C9 (amended): the 202 submission response's `estimated_time` is
`2 · num_images` for text-to-image and a flat 15 seconds for inpaint and
replay submissions; the resolution-scaling formula with the +5 model-load
term — equal in closed form to `n · (3 · pixels / 512²) + 5` — is
`estimate_generation_time`, which feeds the `estimated_seconds` field of the
status endpoint for non-terminal tasks, not the submission response. -/
theorem submission_estimate_formulas :
    (∀ (uid : Option String) (r : ImageGenerateRequest) (tid cid : String)
        (now : ℚ),
      (generate_submit uid r tid cid now).resp.estimated_time
        = (r.num_images : ℚ) * 2)
    ∧ (∀ (images : List ImageRow) (uid : Option String) (r : InpaintRequest)
        (tid cid : String) (now : ℚ) (out : InpaintOutcome),
        inpaint_submit images uid r tid cid now = .ok out →
        out.resp.estimated_time = 15)
    ∧ (∀ (env : ReplayEnv) (hs : List EditHistoryRow) (imgs : List ImageRow)
        (uid : Option String) (hid tgt tid cid : String) (now : ℚ)
        (out : InpaintOutcome),
        replay_edit env hs imgs uid hid tgt tid cid now = .ok out →
        out.resp.estimated_time = 15)
    ∧ (∀ (w h n : Int), 1 ≤ n →
        estimate_generation_time w h n
          = (n : ℚ) * (3 * (((w * h : Int)) : ℚ) / (512 * 512)) + 5)
    ∧ (∀ (t : GenerationTask) (now : ℚ), t.status = .pending →
        (build_generation_status now t).estimated_seconds
          = some (estimate_generation_time t.width t.height t.num_images)) := by
  refine ⟨fun _ _ _ _ _ => rfl, ?_, ?_, ?_, ?_⟩
  · intro images uid r tid cid now out h
    rcases hf : images.find? (fun i => i.id == r.original_image_id) with _ | img
    · simp [inpaint_submit, hf] at h
    · simp [inpaint_submit, hf] at h
      rw [← h]
  · intro env hs imgs uid hid tgt tid cid now out h
    rcases hfh : hs.find? (fun hh => hh.id == hid && hh.user_id == pyUser uid)
      with _ | history
    · simp [replay_edit, hfh] at h
    · by_cases hm : pyStrTruthy history.mask_object_name = true
      · rcases hfi : imgs.find? (fun i => i.id == tgt) with _ | target
        · simp [replay_edit, hfh, hm, hfi] at h
        · rcases hg : env.minioGet (history.mask_object_name.getD "")
            with _ | bytes
          · simp [replay_edit, hfh, hm, hfi, hg] at h
          · simp [replay_edit, hfh, hm, hfi, hg] at h
            rw [← h]
      · rw [Bool.not_eq_true] at hm
        simp [replay_edit, hfh, hm] at h
  · intro w h n hn
    unfold estimate_generation_time
    by_cases h1 : n = 1
    · simp only [h1, beq_self_eq_true, if_true]
      push_cast
      ring
    · simp only [beq_iff_eq, h1, if_false]
      push_cast
      ring
  · intro t now h
    simp [build_generation_status, h]

/-- A well-formed inpaint request targeting the demo image. -/
def demoInpaintRequest : InpaintRequest :=
  { original_image_id := "I2", mask_data := "data:image/png;base64,AAAA",
    prompt := "a red hat", negative_prompt := none }

/-- C9 witness: `submission_estimate_formulas` instantiated on the S1
request, a concrete inpaint submission, 512x512 with two images, and the
pending demo task. -/
theorem submission_estimate_formulas_witness :
    (generate_submit none s1Request "T9b" "C9b" 0).resp.estimated_time
      = (s1Request.num_images : ℚ) * 2
    ∧ ((inpaint_submit [demoForeignImage] none demoInpaintRequest "TI" "CI"
          0).toOption.map fun o => o.resp.estimated_time) = some 15
    ∧ estimate_generation_time 512 512 2
        = (2 : ℚ) * (3 * (((512 * 512 : Int)) : ℚ) / (512 * 512)) + 5
    ∧ (build_generation_status 3 demoTask).estimated_seconds
        = some (estimate_generation_time demoTask.width demoTask.height
            demoTask.num_images) := by
  refine ⟨submission_estimate_formulas.1 none s1Request "T9b" "C9b" 0, ?_,
    submission_estimate_formulas.2.2.2.1 512 512 2 (by decide),
    submission_estimate_formulas.2.2.2.2 demoTask 3 rfl⟩
  obtain ⟨out, hout⟩ : ∃ o, inpaint_submit [demoForeignImage] none
      demoInpaintRequest "TI" "CI" 0 = .ok o := ⟨_, rfl⟩
  have h15 := submission_estimate_formulas.2.1 [demoForeignImage] none
    demoInpaintRequest "TI" "CI" 0 out hout
  simp [hout, Except.toOption, h15]

end Zimage

namespace Zimage

open Zimage.Api

/-- A generation task owned by user `u2`, not the default user. -/
def demoForeignTask : GenerationTask :=
  { demoTask with id := "TX", user_id := "u2" }

/-- C10 counterexample: the generation status endpoint selects the task by
id alone (tasks.py lines 48-51 — the handler declares no user parameter), so
a request without an `X-User-ID` header is served the task of any owner: the
returned resource belongs to `u2`, not to the substituted default user the
claim describes. -/
theorem status_lookup_returns_foreign_task :
    get_task_status_lookup [demoForeignTask] "TX" = some demoForeignTask
    ∧ demoForeignTask.user_id = "u2"
    ∧ ("u2" : String) ≠ defaultUserId := ⟨rfl, rfl, by decide⟩

/-- C10 (amended): requests without an `X-User-ID` header are never
rejected; the submission and replay handlers substitute the fixed default
user id — an absent or empty header behaves exactly like the default user —
and create resources owned by it, while the status lookup ignores user
identity altogether and returns the task whoever owns it. -/
theorem default_user_substitution :
    (∀ (r : ImageGenerateRequest) (tid cid : String) (now : ℚ),
      (generate_submit none r tid cid now).task.user_id = defaultUserId
      ∧ (generate_submit (some "") r tid cid now).task.user_id = defaultUserId)
    ∧ (∀ (images : List ImageRow) (r : InpaintRequest) (tid cid : String)
        (now : ℚ) (out : InpaintOutcome),
        inpaint_submit images none r tid cid now = .ok out →
        out.task.user_id = defaultUserId)
    ∧ (∀ (env : ReplayEnv) (hs : List EditHistoryRow) (imgs : List ImageRow)
        (hid tgt tid cid : String) (now : ℚ),
        replay_edit env hs imgs none hid tgt tid cid now
          = replay_edit env hs imgs (some defaultUserId) hid tgt tid cid now)
    ∧ (∀ t : GenerationTask, get_task_status_lookup [t] t.id = some t) := by
  refine ⟨fun _ _ _ _ => ⟨rfl, rfl⟩, ?_, ?_, ?_⟩
  · intro images r tid cid now out h
    rcases hf : images.find? (fun i => i.id == r.original_image_id) with _ | img
    · simp [inpaint_submit, hf] at h
    · simp [inpaint_submit, hf] at h
      rw [← h]
      rfl
  · intro env hs imgs hid tgt tid cid now
    rfl
  · intro t
    unfold get_task_status_lookup
    rw [List.find?_cons_of_pos _ (by simp)]

/-- C10 witness: `default_user_substitution` instantiated on concrete
submissions, the demo replay fixtures and the demo pending task. -/
theorem default_user_substitution_witness :
    (generate_submit none cxGenerateRequest "TA" "CA" 0).task.user_id
      = defaultUserId
    ∧ ((inpaint_submit [demoForeignImage] none demoInpaintRequest "TB" "CB"
          0).toOption.map fun o => o.task.user_id) = some defaultUserId
    ∧ replay_edit demoReplayEnv [demoHistory] [demoForeignImage] none "H1"
        "I2" "NB" "CNB" 0
      = replay_edit demoReplayEnv [demoHistory] [demoForeignImage]
          (some defaultUserId) "H1" "I2" "NB" "CNB" 0
    ∧ get_task_status_lookup [demoTask] demoTask.id = some demoTask := by
  refine ⟨(default_user_substitution.1 cxGenerateRequest "TA" "CA" 0).1, ?_,
    default_user_substitution.2.2.1 demoReplayEnv [demoHistory]
      [demoForeignImage] "H1" "I2" "NB" "CNB" 0,
    default_user_substitution.2.2.2 demoTask⟩
  obtain ⟨out, hout⟩ : ∃ o, inpaint_submit [demoForeignImage] none
      demoInpaintRequest "TB" "CB" 0 = .ok o := ⟨_, rfl⟩
  have hu := default_user_substitution.2.1 [demoForeignImage]
    demoInpaintRequest "TB" "CB" 0 out hout
  simp [hout, Except.toOption, hu]

end Zimage
